import Mathlib

/-
Shallow embedding of the Self-Evolving-Portfolio front end (src/app.js):
the InteractionTracker data record and its mutating methods, the JSON
persistence layer, and the EvolutionEngine rule loop. Wall-clock reads
(Date.now, toDateString) are passed in as explicit arguments; the DOM is
modeled as a record of the elements the code queries; JavaScript numbers
that are only ever integers are modeled as Nat or Int, and the float
weights 0.3 and 0.4 of getEngagementScore as exact rationals.
-/

/-- JSON value trees, as produced by JSON.stringify / JSON.parse.
Numbers occurring in this program are integers (counters, epoch-ms
timestamps, pixel coordinates), so the num payload is an Int. -/
inductive Json : Type where
  | null : Json
  | bool : Bool → Json
  | num : Int → Json
  | str : String → Json
  | arr : List Json → Json
  | obj : List (String × Json) → Json

/-- JavaScript object-literal field list: a later occurrence of a key
overwrites the earlier value in place (spread / duplicate-key semantics). -/
def setField : List (String × Json) → String → Json → List (String × Json)
  | [], k, v => [(k, v)]
  | (k', v') :: rest, k, v =>
      if k' = k then (k', v) :: rest else (k', v') :: setField rest k v

/-- Assemble a JS object literal from its written fields, left to right. -/
def jsObjFields (fields : List (String × Json)) : List (String × Json) :=
  fields.foldl (fun acc kv => setField acc kv.1 kv.2) []

/-- The truncation applied after a push: `if (l.length > cap) l = l.slice(-cap)`.
slice(-cap) keeps the last cap elements, i.e. drops the oldest. -/
def capList {α : Type} (cap : Nat) (l : List α) : List α :=
  if l.length > cap then l.drop (l.length - cap) else l

/-- The clicks record of InteractionData, keys in source order. -/
structure Clicks where
  projects : Nat
  contact : Nat
  about : Nat
  themeToggle : Nat
  social : Nat
  cta : Nat
  navigation : Nat
deriving DecidableEq

/-- Keyed read `data.clicks[k]`: some value on the seven known keys,
none (undefined) otherwise. -/
def Clicks.get (c : Clicks) (k : String) : Option Nat :=
  if k = "projects" then some c.projects
  else if k = "contact" then some c.contact
  else if k = "about" then some c.about
  else if k = "themeToggle" then some c.themeToggle
  else if k = "social" then some c.social
  else if k = "cta" then some c.cta
  else if k = "navigation" then some c.navigation
  else none

/-- The guarded increment `if (clicks[k] !== undefined) clicks[k]++`:
unknown keys leave the record unchanged. -/
def Clicks.incr (c : Clicks) (k : String) : Clicks :=
  if k = "projects" then { c with projects := c.projects + 1 }
  else if k = "contact" then { c with contact := c.contact + 1 }
  else if k = "about" then { c with about := c.about + 1 }
  else if k = "themeToggle" then { c with themeToggle := c.themeToggle + 1 }
  else if k = "social" then { c with social := c.social + 1 }
  else if k = "cta" then { c with cta := c.cta + 1 }
  else if k = "navigation" then { c with navigation := c.navigation + 1 }
  else c

/-- Per-section dwell-time accumulators (milliseconds), keys in source order. -/
structure TimeOnSections where
  home : Nat
  about : Nat
  projects : Nat
  contact : Nat
deriving DecidableEq

/-- Per-section view counters, keys in source order. -/
structure SectionViews where
  home : Nat
  about : Nat
  projects : Nat
  contact : Nat
deriving DecidableEq

/-- The guarded increment `if (sectionViews[k] !== undefined) sectionViews[k]++`. -/
def SectionViews.incr (v : SectionViews) (k : String) : SectionViews :=
  if k = "home" then { v with home := v.home + 1 }
  else if k = "about" then { v with about := v.about + 1 }
  else if k = "projects" then { v with projects := v.projects + 1 }
  else if k = "contact" then { v with contact := v.contact + 1 }
  else v

/-- `timeOnSections[k] += ms`. The source has no key guard here; the
currentSection values it is called with are the four section ids, and the
embedding is restricted to those (an unknown key would produce NaN in JS). -/
def TimeOnSections.add (t : TimeOnSections) (k : String) (ms : Nat) : TimeOnSections :=
  if k = "home" then { t with home := t.home + ms }
  else if k = "about" then { t with about := t.about + ms }
  else if k = "projects" then { t with projects := t.projects + ms }
  else if k = "contact" then { t with contact := t.contact + ms }
  else t

/-- The InteractionTracker data record, fields in constructor order. -/
structure InteractionData where
  clicks : Clicks
  scrollDepth : Nat
  timeOnSections : TimeOnSections
  themePreference : String
  lastVisit : Option String
  visitCount : Nat
  sectionViews : SectionViews
  interactions : List Json

/-- The hard-coded defaults the constructor falls back to. -/
def defaultData : InteractionData where
  clicks := ⟨0, 0, 0, 0, 0, 0, 0⟩
  scrollDepth := 0
  timeOnSections := ⟨0, 0, 0, 0⟩
  themePreference := "light"
  lastVisit := none
  visitCount := 0
  sectionViews := ⟨0, 0, 0, 0⟩
  interactions := []

/-- trackInteraction(type, data): push `\x7b type, timestamp: Date.now(), ...data \x7d`
onto the log, then truncate to the most recent 1000 entries when over the cap. -/
def trackInteraction (now : Int) (ty : String) (payload : List (String × Json))
    (d : InteractionData) : InteractionData :=
  let entry := Json.obj (jsObjFields
    (("type", Json.str ty) :: ("timestamp", Json.num now) :: payload))
  { d with interactions := capList 1000 (d.interactions ++ [entry]) }

/-! ### JSON serialization (JSON.stringify / JSON.parse of the data record) -/

/-- Integers that denote counters decode back to Nat; a negative number is
not the image of any counter. -/
def intAsNat : Int → Option Nat
  | .ofNat n => some n
  | .negSucc _ => none

/-- Field access on a parsed JSON object. -/
def jGet (j : Json) (k : String) : Option Json :=
  match j with
  | .obj kvs => kvs.lookup k
  | _ => none

def jNat (o : Option Json) : Option Nat :=
  match o with
  | some (.num n) => intAsNat n
  | _ => none

def jStr (o : Option Json) : Option String :=
  match o with
  | some (.str s) => some s
  | _ => none

/-- lastVisit is either null or a date string. -/
def jOptStr (o : Option Json) : Option (Option String) :=
  match o with
  | some .null => some none
  | some (.str s) => some (some s)
  | _ => none

def jArr (o : Option Json) : Option (List Json) :=
  match o with
  | some (.arr l) => some l
  | _ => none

def encodeOptStr : Option String → Json
  | none => Json.null
  | some s => Json.str s

def encodeClicks (c : Clicks) : Json :=
  .obj [("projects", .num (c.projects : Int)), ("contact", .num (c.contact : Int)),
        ("about", .num (c.about : Int)), ("themeToggle", .num (c.themeToggle : Int)),
        ("social", .num (c.social : Int)), ("cta", .num (c.cta : Int)),
        ("navigation", .num (c.navigation : Int))]

def decodeClicks (j : Json) : Option Clicks := do
  let projects ← jNat (jGet j "projects")
  let contact ← jNat (jGet j "contact")
  let about ← jNat (jGet j "about")
  let themeToggle ← jNat (jGet j "themeToggle")
  let social ← jNat (jGet j "social")
  let cta ← jNat (jGet j "cta")
  let navigation ← jNat (jGet j "navigation")
  pure ⟨projects, contact, about, themeToggle, social, cta, navigation⟩

def encodeTimes (t : TimeOnSections) : Json :=
  .obj [("home", .num (t.home : Int)), ("about", .num (t.about : Int)),
        ("projects", .num (t.projects : Int)), ("contact", .num (t.contact : Int))]

def decodeTimes (j : Json) : Option TimeOnSections := do
  let home ← jNat (jGet j "home")
  let about ← jNat (jGet j "about")
  let projects ← jNat (jGet j "projects")
  let contact ← jNat (jGet j "contact")
  pure ⟨home, about, projects, contact⟩

def encodeViews (v : SectionViews) : Json :=
  .obj [("home", .num (v.home : Int)), ("about", .num (v.about : Int)),
        ("projects", .num (v.projects : Int)), ("contact", .num (v.contact : Int))]

def decodeViews (j : Json) : Option SectionViews := do
  let home ← jNat (jGet j "home")
  let about ← jNat (jGet j "about")
  let projects ← jNat (jGet j "projects")
  let contact ← jNat (jGet j "contact")
  pure ⟨home, about, projects, contact⟩

/-- JSON.stringify(this.data): fields in the insertion order of the
constructor object literal. -/
def encodeData (d : InteractionData) : Json :=
  .obj [("clicks", encodeClicks d.clicks),
        ("scrollDepth", .num (d.scrollDepth : Int)),
        ("timeOnSections", encodeTimes d.timeOnSections),
        ("themePreference", .str d.themePreference),
        ("lastVisit", encodeOptStr d.lastVisit),
        ("visitCount", .num (d.visitCount : Int)),
        ("sectionViews", encodeViews d.sectionViews),
        ("interactions", .arr d.interactions)]

/-- Reading a parsed JSON tree back into the typed data record. The JS
constructor uses the parsed object directly without schema validation;
this decoder is the typed reading of a tree that has the schema. -/
def decodeData (j : Json) : Option InteractionData := do
  let clicks ← (jGet j "clicks").bind decodeClicks
  let scrollDepth ← jNat (jGet j "scrollDepth")
  let timeOnSections ← (jGet j "timeOnSections").bind decodeTimes
  let themePreference ← jStr (jGet j "themePreference")
  let lastVisit ← jOptStr (jGet j "lastVisit")
  let visitCount ← jNat (jGet j "visitCount")
  let sectionViews ← (jGet j "sectionViews").bind decodeViews
  let interactions ← jArr (jGet j "interactions")
  pure ⟨clicks, scrollDepth, timeOnSections, themePreference, lastVisit,
        visitCount, sectionViews, interactions⟩

/-! ### Tracker state and persistence -/

/-- The tracker together with the localStorage slot it writes
(key portfolioInteractionData), holding the serialized tree. -/
structure TrackerState where
  data : InteractionData
  storage : Option Json

/-- saveData, successful write: localStorage.setItem(key, JSON.stringify(this.data)). -/
def saveData (s : TrackerState) : TrackerState :=
  { s with storage := some (encodeData s.data) }

/-- saveData with its try/catch: a throwing setItem is caught (console.warn
only), leaving both the store and the in-memory record unchanged. -/
def saveDataCaught (writeOk : Bool) (s : TrackerState) : TrackerState :=
  if writeOk then saveData s else s

/-- What localStorage.getItem + JSON.parse produced on this load:
no stored item, a throwing getItem/parse, or a parsed tree. -/
inductive LoadResult : Type where
  | absent : LoadResult
  | corrupt : LoadResult
  | parsed : Json → LoadResult

/-- loadData: `saved ? JSON.parse(saved) : null`, with parse errors caught
and turned into null (console.warn only). -/
def loadData : LoadResult → Option Json
  | .absent => none
  | .corrupt => none
  | .parsed j => some j

/-- The constructor line `this.data = this.loadData() || \x7b defaults \x7d`,
with the parsed tree read into the typed record. -/
def initData (r : LoadResult) : InteractionData :=
  match (loadData r).bind decodeData with
  | some d => d
  | none => defaultData

/-! ### Tracker mutating methods -/

/-- trackClick(type, target, metadata): two guarded counter increments,
one log entry of the shape `\x7b type, target, ...metadata \x7d` (under event
type click), then an immediate save. -/
def trackClick (now : Int) (ty : String) (target : Option String)
    (metadata : List (String × Json)) (s : TrackerState) : TrackerState :=
  let d := s.data
  let d := { d with clicks := d.clicks.incr ty }
  let d := match target with
    | some t => { d with clicks := d.clicks.incr t }
    | none => d
  let d := trackInteraction now "click"
    (("type", Json.str ty) :: ("target", encodeOptStr target) :: metadata) d
  saveData { s with data := d }

/-- trackSectionView(section): guarded view-counter increment plus a log
entry; this method does not save. -/
def trackSectionView (now : Int) (sect : String) (d : InteractionData) :
    InteractionData :=
  let d := { d with sectionViews := d.sectionViews.incr sect }
  trackInteraction now "section_view" [("section", Json.str sect)] d

/-- trackThemePreference(preference): set the field, log, save. -/
def trackThemePreference (now : Int) (preference : String) (s : TrackerState) :
    TrackerState :=
  let d := { s.data with themePreference := preference }
  let d := trackInteraction now "theme_change" [("preference", Json.str preference)] d
  saveData { s with data := d }

/-- incrementVisitCount, with today = new Date().toDateString() passed in:
a strict-inequality date check guards the increment, the visit log entry
and the save; on equality nothing at all happens. -/
def incrementVisitCount (today : String) (now : Int) (s : TrackerState) :
    TrackerState :=
  if s.data.lastVisit ≠ some today then
    let d := { s.data with visitCount := s.data.visitCount + 1, lastVisit := some today }
    let d := trackInteraction now "visit" [] d
    saveData { s with data := d }
  else s

/-- updateSectionTime: add the elapsed wall-clock time since the last
section transition to the dwell accumulator of the current section. -/
def updateSectionTime (now : Int) (currentSection : String)
    (sectionStartTime : Int) (d : InteractionData) : InteractionData :=
  { d with timeOnSections := d.timeOnSections.add currentSection (now - sectionStartTime).toNat }

/-- resetData, with today = new Date().toDateString(): replace the record
by fresh zeroes (visitCount 1, lastVisit today) and save. -/
def resetData (today : String) (s : TrackerState) : TrackerState :=
  saveData { s with data :=
    { clicks := ⟨0, 0, 0, 0, 0, 0, 0⟩
      scrollDepth := 0
      timeOnSections := ⟨0, 0, 0, 0⟩
      sectionViews := ⟨0, 0, 0, 0⟩
      themePreference := "light"
      lastVisit := some today
      visitCount := 1
      interactions := [] } }

/-- getEngagementScore: Object.values sums in key order, dwell milliseconds
divided by 1000, then the weighted sum with the float literals 0.3, 0.4, 0.3
taken as exact rationals (at every input appearing in the spec the JS double
computation rounds to the same exact value). -/
def getEngagementScore (d : InteractionData) : ℚ :=
  let clicks : ℚ := ((d.clicks.projects + d.clicks.contact + d.clicks.about +
    d.clicks.themeToggle + d.clicks.social + d.clicks.cta + d.clicks.navigation : Nat) : ℚ)
  let time : ℚ := ((d.timeOnSections.home + d.timeOnSections.about +
    d.timeOnSections.projects + d.timeOnSections.contact : Nat) : ℚ) / 1000
  let scroll : ℚ := (d.scrollDepth : ℚ)
  clicks * (3 / 10) + time * (2 / 5) + scroll * (3 / 10)

/-! ### DOM surface touched by the evolution actions -/

/-- The page elements the EvolutionEngine queries and mutates. An Option
field is none when the element (or the span inside it) is absent, so that
the optional-chaining guards of the source become Option matches. The
asynchronous presentation details (fade timeouts, the staggered per-card
delays, the 5 second notice auto-hide) net out to their final effect. -/
structure DomState where
  projectsPresent : Bool
  aboutPresent : Bool
  projectsNextIsAbout : Bool
  cssPrimary : String
  cssPrimaryDark : String
  contactHeroSpan : Option String
  exploreSpan : Option String
  submitSpan : Option String
  bodyDarkTheme : Bool
  themeToggleIcon : Option String
  projectCardsHighlighted : Bool
  glowStyleCount : Nat
  additionalContentCount : Nat
  noticePresent : Bool
  noticeTextSpan : Option String
  noticeShown : Bool

/-- A history entry: timestamp (toISOString modeled by the epoch-ms clock
value), description, a deep snapshot of the tracker data (a JSON
stringify/parse copy, which in a pure embedding is the value itself), and
the engagement score at that moment. -/
structure EvolutionEvent where
  timestamp : Int
  description : String
  data : InteractionData
  engagementScore : ℚ

/-- Everything the engine reads and writes apart from its own rule state:
the shared tracker (this.tracker, aliased, so actions that call tracker
methods are visible to later condition evaluations in the same tick), the
DOM, and the evolution history list. The evolutionHistory localStorage slot
is written on every logEvolution; no claim concerns its contents, so the
embedding keeps only the in-memory list. -/
structure World where
  tracker : TrackerState
  dom : DomState
  evolutionHistory : List EvolutionEvent

/-- logEvolution(description): push the event, truncate to the most recent
100 entries when over the cap, persist. -/
def logEvolution (now : Int) (description : String) (w : World) : World :=
  let ev : EvolutionEvent :=
    { timestamp := now
      description := description
      data := w.tracker.data
      engagementScore := getEngagementScore w.tracker.data }
  { w with evolutionHistory := capList 100 (w.evolutionHistory ++ [ev]) }

/-- showEvolutionNotice(message): set the notice text if the inner span
exists, add the show class; all guarded on the notice element existing. -/
def showEvolutionNotice (message : String) (w : World) : World :=
  if w.dom.noticePresent then
    let dom := match w.dom.noticeTextSpan with
      | some _ => { w.dom with noticeTextSpan := some message }
      | none => w.dom
    { w with dom := { dom with noticeShown := true } }
  else w

/-! ### The five evolution actions -/

/-- moveProjectsUp: when both sections (and hence the parent container)
exist and projects is not already immediately before about, reorder them,
log and show the notice; otherwise a complete no-op. -/
def moveProjectsUp (now : Int) (w : World) : World :=
  if w.dom.aboutPresent && w.dom.projectsPresent && !w.dom.projectsNextIsAbout then
    let w := { w with dom := { w.dom with projectsNextIsAbout := true } }
    let w := logEvolution now "Projects section moved up based on your interest!" w
    showEvolutionNotice "ðŸŽ¯ Projects prioritized! Moved to top based on your interest." w
  else w

/-- optimizeCTA: set the two accent CSS variables, rewrite the label span
of each of the three buttons that exist, log, notice. -/
def optimizeCTA (now : Int) (w : World) : World :=
  let dom := { w.dom with cssPrimary := "#10b981", cssPrimaryDark := "#059669" }
  let dom := match dom.contactHeroSpan with
    | some _ => { dom with contactHeroSpan := some "Let\x27s Build Together!" }
    | none => dom
  let dom := match dom.exploreSpan with
    | some _ => { dom with exploreSpan := some "See My Work â†’" }
    | none => dom
  let dom := match dom.submitSpan with
    | some _ => { dom with submitSpan := some "Send Message Now!" }
    | none => dom
  let w := { w with dom := dom }
  let w := logEvolution now "CTA buttons optimized based on engagement!" w
  showEvolutionNotice "âœ¨ CTAs enhanced! Buttons optimized for better conversion." w

/-- setDarkThemeDefault: only when the body does not already carry the
dark-theme class: add it, swap the toggle icon if present, record the
preference through the tracker (which logs and saves), log, notice. -/
def setDarkThemeDefault (now : Int) (w : World) : World :=
  if !w.dom.bodyDarkTheme then
    let dom := { w.dom with bodyDarkTheme := true }
    let dom := match dom.themeToggleIcon with
      | some _ => { dom with themeToggleIcon := some "<i class=\"fas fa-sun\"></i>" }
      | none => dom
    let w := { w with dom := dom, tracker := trackThemePreference now "dark" w.tracker }
    let w := logEvolution now "Dark theme set as default based on user preference!" w
    showEvolutionNotice "ðŸŒ™ Dark theme activated as your default preference." w
  else w

/-- highlightPopularProject: style every project card and append one glow
keyframes style element to the head, log, notice. -/
def highlightPopularProject (now : Int) (w : World) : World :=
  let dom := { w.dom with projectCardsHighlighted := true,
                          glowStyleCount := w.dom.glowStyleCount + 1 }
  let w := { w with dom := dom }
  let w := logEvolution now "Projects highlighted based on user interest!" w
  showEvolutionNotice "ðŸ’Ž Projects highlighted! Your interest in my work is noted." w

/-- revealAdditionalContent: append the bonus block under the projects
section when it exists; the log entry and notice happen unconditionally. -/
def revealAdditionalContent (now : Int) (w : World) : World :=
  let dom := if w.dom.projectsPresent then
    { w.dom with additionalContentCount := w.dom.additionalContentCount + 1 }
  else w.dom
  let w := { w with dom := dom }
  let w := logEvolution now "Additional content revealed due to deep engagement!" w
  showEvolutionNotice "ðŸ”“ Exclusive content unlocked! Scroll to see more." w

/-! ### The rule table and the evaluation loop -/

/-- An evolution rule: name, predicate over the tracker data, action,
cooldown in milliseconds. -/
structure EvolutionRule where
  name : String
  condition : InteractionData → Bool
  action : Int → World → World
  cooldown : Int

/-- setupEvolutionRules: the fixed rule table, in source order. -/
def setupEvolutionRules : List EvolutionRule :=
  [ { name := "projects_priority"
      condition := fun data => decide (data.clicks.projects > data.clicks.about + 2) &&
                               decide (data.timeOnSections.projects > data.timeOnSections.about)
      action := moveProjectsUp
      cooldown := 30000 },
    { name := "cta_optimization"
      condition := fun data => decide (data.clicks.cta > 3) || decide (data.clicks.contact > 5)
      action := optimizeCTA
      cooldown := 45000 },
    { name := "dark_theme_default"
      condition := fun data => decide (data.clicks.themeToggle > 1) &&
                               decide (data.themePreference = "dark")
      action := setDarkThemeDefault
      cooldown := 60000 },
    { name := "project_highlight"
      condition := fun data => decide (data.clicks.projects > 8)
      action := highlightPopularProject
      cooldown := 25000 },
    { name := "content_reveal"
      condition := fun data => decide (data.scrollDepth > 70)
      action := revealAdditionalContent
      cooldown := 30000 } ]

/-- The engine rule bookkeeping: this.lastAppliedTimes (a Map, modeled as
an association list in insertion order) and this.currentEvolutions (a Set,
modeled as a duplicate-free append list). Both start empty and nothing in
the program ever removes an entry. -/
structure EngineState where
  lastAppliedTimes : List (String × Int)
  currentEvolutions : List String

def initEngineState : EngineState := ⟨[], []⟩

/-- `this.lastAppliedTimes.get(rule.name) || 0`. -/
def EngineState.getLastApplied (st : EngineState) (name : String) : Int :=
  (st.lastAppliedTimes.lookup name).getD 0

/-- Map.set: replace the value at an existing key, append otherwise. -/
def setAssoc : List (String × Int) → String → Int → List (String × Int)
  | [], k, v => [(k, v)]
  | (k', v') :: rest, k, v =>
      if k' == k then (k', v) :: rest else (k', v') :: setAssoc rest k v

def EngineState.setLastApplied (st : EngineState) (name : String) (t : Int) : EngineState :=
  { st with lastAppliedTimes := setAssoc st.lastAppliedTimes name t }

/-- Set.add. -/
def EngineState.addEvolution (st : EngineState) (name : String) : EngineState :=
  { st with currentEvolutions :=
      if st.currentEvolutions.contains name then st.currentEvolutions
      else st.currentEvolutions ++ [name] }

/-- shouldApplyRule(rule, data): predicate holds, cooldown strictly
elapsed since the recorded last application (0 when never applied), and
the rule is not in the currentEvolutions set. -/
def shouldApplyRule (rule : EvolutionRule) (data : InteractionData) (now : Int)
    (st : EngineState) : Bool :=
  let lastApplied := st.getLastApplied rule.name
  let cooldownPassed := decide (now - lastApplied > rule.cooldown)
  let notCurrentlyActive := !(st.currentEvolutions.contains rule.name)
  rule.condition data && cooldownPassed && notCurrentlyActive

/-- The forEach body of checkEvolutionRules over the remaining rules:
for each rule that shouldApplyRule accepts, run the action, add the name
to currentEvolutions and record the application time, in that order. The
condition is evaluated against the current tracker data, which actions of
earlier rules in the same tick may have mutated (the data local in the
source is an alias of this.tracker.data). Returns the final engine state,
the final world and the names fired in this pass, in rule order. -/
def runRules (now : Int) : List EvolutionRule → EngineState → World →
    EngineState × World × List String
  | [], st, w => (st, w, [])
  | rule :: rest, st, w =>
      if shouldApplyRule rule w.tracker.data now st then
        let res := runRules now rest
          ((st.addEvolution rule.name).setLastApplied rule.name now)
          (rule.action now w)
        (res.1, res.2.1, rule.name :: res.2.2)
      else
        runRules now rest st w

/-- checkEvolutionRules: one evaluation pass over the whole rule table. -/
def checkEvolutionRules (now : Int) (st : EngineState) (w : World) :
    EngineState × World × List String :=
  runRules now setupEvolutionRules st w

/-- A session trace: checkEvolutionRules evaluations at successive clock
values, each against the world as it stands at that moment (user
interaction between two ticks may have changed tracker data and DOM
arbitrarily, so the world of each tick is an input; the engine rule state
is threaded through). Returns the final engine state and the fired names
of each tick. -/
def runTicks : List (Int × World) → EngineState → EngineState × List (List String)
  | [], st => (st, [])
  | (now, w) :: rest, st =>
      let res := checkEvolutionRules now st w
      let res' := runTicks rest res.1
      (res'.1, res.2.2 :: res'.2)

/-- How often a rule name was fired over a trace. -/
def countFired (name : String) (trace : List (List String)) : Nat :=
  (trace.map (fun l => l.count name)).sum

/-! ### Named aggregates and concrete scenarios used in the statements -/

/-- Total of all click counters, Object.values order. -/
def totalClicks (d : InteractionData) : Nat :=
  d.clicks.projects + d.clicks.contact + d.clicks.about + d.clicks.themeToggle +
    d.clicks.social + d.clicks.cta + d.clicks.navigation

/-- Total dwell time in milliseconds, Object.values order. -/
def totalDwellMs (d : InteractionData) : Nat :=
  d.timeOnSections.home + d.timeOnSections.about + d.timeOnSections.projects +
    d.timeOnSections.contact

/-- The engagement-score example of the spec: 10 total clicks, 5 seconds of
dwell time, scroll depth 50. -/
def scoreExampleData : InteractionData :=
  { defaultData with
      clicks := { defaultData.clicks with cta := 10 }
      timeOnSections := ⟨5000, 0, 0, 0⟩
      scrollDepth := 50 }

/-- How much trackClick(ty, target) adds to the click counter at key k. -/
def clickBump (ty : String) (target : Option String) (k : String) : Nat :=
  (if ty = k then 1 else 0) + (if target = some k then 1 else 0)

/-- Pointwise order on the click and view counters of two data records. -/
def clicksViewsLE (d d' : InteractionData) : Prop :=
  d.clicks.projects ≤ d'.clicks.projects ∧ d.clicks.contact ≤ d'.clicks.contact ∧
  d.clicks.about ≤ d'.clicks.about ∧ d.clicks.themeToggle ≤ d'.clicks.themeToggle ∧
  d.clicks.social ≤ d'.clicks.social ∧ d.clicks.cta ≤ d'.clicks.cta ∧
  d.clicks.navigation ≤ d'.clicks.navigation ∧
  d.sectionViews.home ≤ d'.sectionViews.home ∧
  d.sectionViews.about ≤ d'.sectionViews.about ∧
  d.sectionViews.projects ≤ d'.sectionViews.projects ∧
  d.sectionViews.contact ≤ d'.sectionViews.contact

/-- A fully populated page: every element the engine touches is present,
with the markup defaults (accent variables, original button labels,
light theme, moon icon, notice hidden). -/
def demoDom : DomState where
  projectsPresent := true
  aboutPresent := true
  projectsNextIsAbout := false
  cssPrimary := "#6366f1"
  cssPrimaryDark := "#4f46e5"
  contactHeroSpan := some "Contact Me"
  exploreSpan := some "Explore Projects"
  submitSpan := some "Send Message"
  bodyDarkTheme := false
  themeToggleIcon := some "<i class=\"fas fa-moon\"></i>"
  projectCardsHighlighted := false
  glowStyleCount := 0
  additionalContentCount := 0
  noticePresent := true
  noticeTextSpan := some ""
  noticeShown := false

/-- Four trackClick calls on the cta category starting from the zeroed
defaults (clicks.cta = 0, clicks.contact = 0). -/
def fourCtaClicks : TrackerState :=
  trackClick 4000 "cta" none [] (trackClick 3000 "cta" none []
    (trackClick 2000 "cta" none [] (trackClick 1000 "cta" none []
      ⟨defaultData, none⟩)))

/-- The world right before the next evaluation tick after those clicks. -/
def fourCtaWorld : World := ⟨fourCtaClicks, demoDom, []⟩

/-- A realistic Date.now value (epoch milliseconds, October 2025). -/
def demoNow : Int := 1760000000000

/-- A world whose tracker reports scroll depth 71, past the
content_reveal threshold. -/
def deepScrollWorld : World :=
  ⟨⟨{ defaultData with scrollDepth := 71 }, none⟩, demoDom, []⟩

/-- A tracker state with one recorded cta click, for the resetData
counterexample. -/
def oneCtaClickState : TrackerState :=
  ⟨{ defaultData with clicks := { defaultData.clicks with cta := 1 } }, none⟩

/-- A tracker state whose lastVisit is already the current day string. -/
def visitSeenState : TrackerState :=
  ⟨{ defaultData with lastVisit := some "Sat Oct 11 2025" }, none⟩

/-! ### Engine state lemmas -/

theorem setLastApplied_currentEvolutions (st : EngineState) (n : String) (t : Int) :
    (st.setLastApplied n t).currentEvolutions = st.currentEvolutions := rfl

theorem addEvolution_lastAppliedTimes (st : EngineState) (n : String) :
    (st.addEvolution n).lastAppliedTimes = st.lastAppliedTimes := rfl

theorem mem_addEvolution_self (st : EngineState) (n : String) :
    n ∈ (st.addEvolution n).currentEvolutions := by
  unfold EngineState.addEvolution
  by_cases h : n ∈ st.currentEvolutions <;> simp [h]

theorem mem_addEvolution_of_mem (st : EngineState) (m n : String)
    (h : m ∈ st.currentEvolutions) : m ∈ (st.addEvolution n).currentEvolutions := by
  unfold EngineState.addEvolution
  by_cases hc : n ∈ st.currentEvolutions <;> simp [hc, h]

theorem lookup_setAssoc_ne (l : List (String × Int)) (k k' : String) (v : Int)
    (h : k' ≠ k) : (setAssoc l k v).lookup k' = l.lookup k' := by
  induction l with
  | nil => simp [setAssoc, List.lookup, beq_eq_false_iff_ne.mpr h]
  | cons p rest ih =>
      obtain ⟨a, b⟩ := p
      by_cases hak : a = k
      · have ha : (a == k) = true := beq_iff_eq.mpr hak
        have hk'a : (k' == a) = false := beq_eq_false_iff_ne.mpr (by rw [hak]; exact h)
        simp [setAssoc, List.lookup, ha, hk'a]
      · have ha : (a == k) = false := beq_eq_false_iff_ne.mpr hak
        by_cases hk'a : k' = a
        · have hk : (k' == a) = true := beq_iff_eq.mpr hk'a
          simp [setAssoc, List.lookup, ha, hk]
        · have hk : (k' == a) = false := beq_eq_false_iff_ne.mpr hk'a
          simp [setAssoc, List.lookup, ha, hk, ih]

theorem getLastApplied_after_update_ne (st : EngineState) (m n : String) (t : Int)
    (h : n ≠ m) :
    (((st.addEvolution m).setLastApplied m t)).getLastApplied n = st.getLastApplied n := by
  show ((setAssoc st.lastAppliedTimes m t).lookup n).getD 0
      = (st.lastAppliedTimes.lookup n).getD 0
  rw [lookup_setAssoc_ne _ _ _ _ h]

/-- shouldApplyRule accepts exactly when the predicate holds, the cooldown
strictly elapsed since the recorded last application, and the rule is not
in the currentEvolutions set. -/
theorem shouldApplyRule_iff (rule : EvolutionRule) (data : InteractionData)
    (now : Int) (st : EngineState) :
    shouldApplyRule rule data now st = true ↔
      (rule.condition data = true ∧ now - st.getLastApplied rule.name > rule.cooldown ∧
       rule.name ∉ st.currentEvolutions) := by
  unfold shouldApplyRule
  simp [Bool.and_eq_true, decide_eq_true_iff, List.elem_iff, and_assoc]

/-! ### One evaluation pass: firing invariants -/

theorem runRules_mem_mono (now : Int) (rules : List EvolutionRule)
    (st : EngineState) (w : World) (n : String) (h : n ∈ st.currentEvolutions) :
    n ∈ (runRules now rules st w).1.currentEvolutions := by
  induction rules generalizing st w with
  | nil => simpa [runRules] using h
  | cons rule rest ih =>
      unfold runRules
      by_cases hs : shouldApplyRule rule w.tracker.data now st
      · simp only [hs, if_true]
        exact ih _ _ (by rw [setLastApplied_currentEvolutions]; exact mem_addEvolution_of_mem _ _ _ h)
      · simp only [hs, if_false]
        exact ih _ _ h

theorem runRules_count_zero (now : Int) (rules : List EvolutionRule)
    (st : EngineState) (w : World) (n : String) (h : n ∈ st.currentEvolutions) :
    (runRules now rules st w).2.2.count n = 0 := by
  induction rules generalizing st w with
  | nil => simp [runRules]
  | cons rule rest ih =>
      unfold runRules
      by_cases hs : shouldApplyRule rule w.tracker.data now st
      · have hne : rule.name ≠ n := by
          intro he
          have := ((shouldApplyRule_iff rule w.tracker.data now st).mp hs).2.2
          exact this (he ▸ h)
        simp only [hs, if_true, List.count_cons]
        have hrest := ih ((st.addEvolution rule.name).setLastApplied rule.name now)
          (rule.action now w)
          (by rw [setLastApplied_currentEvolutions]; exact mem_addEvolution_of_mem _ _ _ h)
        simp [hrest, hne]
      · simp only [hs, if_false]
        exact ih _ _ h

theorem runRules_count_le_one (now : Int) (rules : List EvolutionRule)
    (st : EngineState) (w : World) (n : String) :
    (runRules now rules st w).2.2.count n ≤ 1 := by
  induction rules generalizing st w with
  | nil => simp [runRules]
  | cons rule rest ih =>
      unfold runRules
      by_cases hs : shouldApplyRule rule w.tracker.data now st
      · simp only [hs, if_true, List.count_cons]
        by_cases he : rule.name = n
        · subst he
          have hrest := runRules_count_zero now rest
            ((st.addEvolution rule.name).setLastApplied rule.name now)
            (rule.action now w) rule.name
            (by rw [setLastApplied_currentEvolutions]; exact mem_addEvolution_self st rule.name)
          simp [hrest]
        · simpa [he] using ih ((st.addEvolution rule.name).setLastApplied rule.name now)
            (rule.action now w)
      · simp only [hs, if_false]
        exact ih _ _

theorem runRules_mem_of_fired (now : Int) (rules : List EvolutionRule)
    (st : EngineState) (w : World) (n : String)
    (h : n ∈ (runRules now rules st w).2.2) :
    n ∈ (runRules now rules st w).1.currentEvolutions := by
  induction rules generalizing st w with
  | nil => simp [runRules] at h
  | cons rule rest ih =>
      unfold runRules at h ⊢
      by_cases hs : shouldApplyRule rule w.tracker.data now st
      · simp only [hs, if_true] at h ⊢
        rcases List.mem_cons.mp h with he | hf
        · exact runRules_mem_mono now rest _ _ n
            (by rw [setLastApplied_currentEvolutions, he]; exact mem_addEvolution_self st rule.name)
        · exact ih _ _ hf
      · simp only [hs, if_false] at h ⊢
        exact ih _ _ h

theorem runRules_fired_cooldown (now : Int) (rules : List EvolutionRule)
    (st : EngineState) (w : World) (r : EvolutionRule)
    (hnd : (rules.map EvolutionRule.name).Nodup)
    (hr : r ∈ rules) (hf : r.name ∈ (runRules now rules st w).2.2) :
    now - st.getLastApplied r.name > r.cooldown := by
  induction rules generalizing st w with
  | nil => cases hr
  | cons rule rest ih =>
      have hnd' : (rest.map EvolutionRule.name).Nodup := (List.nodup_cons.mp hnd).2
      have hninrest : rule.name ∉ rest.map EvolutionRule.name := (List.nodup_cons.mp hnd).1
      unfold runRules at hf
      by_cases hs : shouldApplyRule rule w.tracker.data now st
      · simp only [hs, if_true] at hf
        rcases List.mem_cons.mp hr with hre | hrm
        · subst hre
          exact ((shouldApplyRule_iff r w.tracker.data now st).mp hs).2.1
        · have hne : r.name ≠ rule.name := by
            intro he
            exact hninrest (he ▸ List.mem_map_of_mem EvolutionRule.name hrm)
          have hf' : r.name ∈ (runRules now rest
              ((st.addEvolution rule.name).setLastApplied rule.name now)
              (rule.action now w)).2.2 := by
            rcases List.mem_cons.mp hf with he | h'
            · exact absurd he hne
            · exact h'
          have := ih _ _ hnd' hrm hf'
          rwa [getLastApplied_after_update_ne st rule.name r.name now hne] at this
      · simp only [hs, if_false] at hf
        rcases List.mem_cons.mp hr with hre | hrm
        · subst hre
          -- the head rule did not fire, yet its name is in the fired list of the
          -- remaining rules: impossible, those names are distinct from it
          exfalso
          have hsub : ∀ m, m ∈ (runRules now rest st w).2.2 → m ∈ rest.map EvolutionRule.name := by
            clear hf hninrest hnd' hnd ih hs hr
            intro m
            induction rest generalizing st w with
            | nil => intro hm; simp [runRules] at hm
            | cons q qs ihq =>
                intro hm
                unfold runRules at hm
                by_cases hq : shouldApplyRule q w.tracker.data now st
                · simp only [hq, if_true] at hm
                  rcases List.mem_cons.mp hm with he | h'
                  · exact he ▸ List.mem_cons_self _ _
                  · exact List.mem_cons_of_mem _ (ihq _ _ h')
                · simp only [hq, if_false] at hm
                  exact List.mem_cons_of_mem _ (ihq _ _ hm)
          exact hninrest (hsub r.name hf)
        · exact ih _ _ hnd' hrm hf

/-! ### Trace-level firing invariants -/

theorem runTicks_mem_mono (ticks : List (Int × World)) (st : EngineState)
    (n : String) (h : n ∈ st.currentEvolutions) :
    n ∈ (runTicks ticks st).1.currentEvolutions := by
  induction ticks generalizing st with
  | nil => simpa [runTicks] using h
  | cons t rest ih =>
      obtain ⟨now, w⟩ := t
      unfold runTicks
      exact ih _ (runRules_mem_mono now setupEvolutionRules st w n h)

theorem runTicks_count_zero (ticks : List (Int × World)) (st : EngineState)
    (n : String) (h : n ∈ st.currentEvolutions) :
    countFired n (runTicks ticks st).2 = 0 := by
  induction ticks generalizing st with
  | nil => simp [runTicks, countFired]
  | cons t rest ih =>
      obtain ⟨now, w⟩ := t
      unfold runTicks countFired
      simp only [List.map_cons, List.sum_cons]
      have h1 : (checkEvolutionRules now st w).2.2.count n = 0 :=
        runRules_count_zero now setupEvolutionRules st w n h
      have h2 := ih (checkEvolutionRules now st w).1
        (runRules_mem_mono now setupEvolutionRules st w n h)
      unfold countFired at h2
      omega

theorem runTicks_count_le_one (ticks : List (Int × World)) (st : EngineState)
    (n : String) : countFired n (runTicks ticks st).2 ≤ 1 := by
  induction ticks generalizing st with
  | nil => simp [runTicks, countFired]
  | cons t rest ih =>
      obtain ⟨now, w⟩ := t
      unfold runTicks countFired
      simp only [List.map_cons, List.sum_cons]
      have hle : (checkEvolutionRules now st w).2.2.count n ≤ 1 :=
        runRules_count_le_one now setupEvolutionRules st w n
      by_cases hz : (checkEvolutionRules now st w).2.2.count n = 0
      · have := ih (checkEvolutionRules now st w).1
        unfold countFired at this
        omega
      · have hmem : n ∈ (checkEvolutionRules now st w).2.2 :=
          List.count_pos_iff.mp (Nat.pos_of_ne_zero hz)
        have hset : n ∈ (checkEvolutionRules now st w).1.currentEvolutions :=
          runRules_mem_of_fired now setupEvolutionRules st w n hmem
        have hrest := runTicks_count_zero rest (checkEvolutionRules now st w).1 n hset
        unfold countFired at hrest
        omega

/-! ### Click-record pointwise lemmas -/

theorem incr_projects (c : Clicks) (k0 : String) :
    (c.incr k0).projects = c.projects + (if k0 = "projects" then 1 else 0) := by
  unfold Clicks.incr
  split_ifs <;> simp_all

theorem incr_contact (c : Clicks) (k0 : String) :
    (c.incr k0).contact = c.contact + (if k0 = "contact" then 1 else 0) := by
  unfold Clicks.incr
  split_ifs <;> simp_all

theorem incr_about (c : Clicks) (k0 : String) :
    (c.incr k0).about = c.about + (if k0 = "about" then 1 else 0) := by
  unfold Clicks.incr
  split_ifs <;> simp_all

theorem incr_themeToggle (c : Clicks) (k0 : String) :
    (c.incr k0).themeToggle = c.themeToggle + (if k0 = "themeToggle" then 1 else 0) := by
  unfold Clicks.incr
  split_ifs <;> simp_all

theorem incr_social (c : Clicks) (k0 : String) :
    (c.incr k0).social = c.social + (if k0 = "social" then 1 else 0) := by
  unfold Clicks.incr
  split_ifs <;> simp_all

theorem incr_cta (c : Clicks) (k0 : String) :
    (c.incr k0).cta = c.cta + (if k0 = "cta" then 1 else 0) := by
  unfold Clicks.incr
  split_ifs <;> simp_all

theorem incr_navigation (c : Clicks) (k0 : String) :
    (c.incr k0).navigation = c.navigation + (if k0 = "navigation" then 1 else 0) := by
  unfold Clicks.incr
  split_ifs <;> simp_all

theorem get_incr (c : Clicks) (k0 k : String) :
    (c.incr k0).get k = (c.get k).map (fun v => v + if k0 = k then 1 else 0) := by
  unfold Clicks.get
  by_cases h1 : k = "projects"
  · subst h1; simp [incr_projects]
  by_cases h2 : k = "contact"
  · subst h2; simp [h1, incr_contact]
  by_cases h3 : k = "about"
  · subst h3; simp [h1, h2, incr_about]
  by_cases h4 : k = "themeToggle"
  · subst h4; simp [h1, h2, h3, incr_themeToggle]
  by_cases h5 : k = "social"
  · subst h5; simp [h1, h2, h3, h4, incr_social]
  by_cases h6 : k = "cta"
  · subst h6; simp [h1, h2, h3, h4, h5, incr_cta]
  by_cases h7 : k = "navigation"
  · subst h7; simp [h1, h2, h3, h4, h5, h6, incr_navigation]
  · simp [h1, h2, h3, h4, h5, h6, h7]

/-! ### Further structural helper lemmas -/

theorem clicks_le_incr (c : Clicks) (k : String) :
    c.projects ≤ (c.incr k).projects ∧ c.contact ≤ (c.incr k).contact ∧
    c.about ≤ (c.incr k).about ∧ c.themeToggle ≤ (c.incr k).themeToggle ∧
    c.social ≤ (c.incr k).social ∧ c.cta ≤ (c.incr k).cta ∧
    c.navigation ≤ (c.incr k).navigation :=
  ⟨by rw [incr_projects]; exact Nat.le_add_right _ _,
   by rw [incr_contact]; exact Nat.le_add_right _ _,
   by rw [incr_about]; exact Nat.le_add_right _ _,
   by rw [incr_themeToggle]; exact Nat.le_add_right _ _,
   by rw [incr_social]; exact Nat.le_add_right _ _,
   by rw [incr_cta]; exact Nat.le_add_right _ _,
   by rw [incr_navigation]; exact Nat.le_add_right _ _⟩

theorem views_le_incr (v : SectionViews) (k : String) :
    v.home ≤ (v.incr k).home ∧ v.about ≤ (v.incr k).about ∧
    v.projects ≤ (v.incr k).projects ∧ v.contact ≤ (v.incr k).contact := by
  unfold SectionViews.incr
  split_ifs <;> simp_all

theorem capList_append_spec {α : Type} (cap : Nat) (l : List α) (e : α) :
    capList cap (l ++ [e]) = (l ++ [e]).drop ((l.length + 1) - cap) ∧
    (capList cap (l ++ [e])).length ≤ cap := by
  unfold capList
  have hl : (l ++ [e]).length = l.length + 1 := by simp
  split_ifs with h
  · refine ⟨by rw [hl], ?_⟩
    rw [List.length_drop, hl]
    rw [hl] at h
    omega
  · rw [hl] at h
    refine ⟨?_, by rw [hl]; omega⟩
    have h0 : l.length + 1 - cap = 0 := by omega
    rw [h0, List.drop_zero]

theorem decode_encode (d : InteractionData) : decodeData (encodeData d) = some d := by
  cases d with
  | mk clicks scrollDepth timeOnSections themePreference lastVisit visitCount
      sectionViews interactions =>
    cases lastVisit <;> rfl

/-! ### Claim theorems -/

/-- C1 (amended): getEngagementScore is the weighted sum 0.3 times total
clicks plus 0.4 times total dwell seconds plus 0.3 times the scroll-depth
percentage; it returns 0 for the zeroed record, and 20.0 (not 5.0) for
total clicks 10, dwell seconds 5, scroll depth 50. -/
theorem engagement_score_weighted_sum :
    getEngagementScore defaultData = 0 ∧
    getEngagementScore scoreExampleData = 20 ∧
    ∀ d : InteractionData,
      getEngagementScore d =
        (totalClicks d : ℚ) * (3 / 10) + ((totalDwellMs d : ℚ) / 1000) * (2 / 5) +
          (d.scrollDepth : ℚ) * (3 / 10) :=
  ⟨by norm_num [getEngagementScore, defaultData],
   by norm_num [getEngagementScore, scoreExampleData, defaultData],
   fun d => rfl⟩

/-- C1, counterexample: at total clicks 10, dwell seconds 5, scroll depth
50, the score is not the 5.0 the spec expects (it is 20). -/
theorem engagement_score_spec_value_refuted :
    getEngagementScore scoreExampleData ≠ 5 := by
  norm_num [getEngagementScore, scoreExampleData, defaultData]

/-- C2: over any session trace of checkEvolutionRules evaluations starting
from the fresh engine state, each rule name fires at most once, however
often the predicates hold and however much time passes. -/
theorem rules_fire_at_most_once_per_session :
    ∀ (ticks : List (Int × World)) (name : String),
      countFired name (runTicks ticks initEngineState).2 ≤ 1 :=
  fun ticks name => runTicks_count_le_one ticks initEngineState name

/-- C3: shouldApplyRule accepts exactly when the predicate holds, strictly
more than cooldown ms elapsed since the recorded last application (0 when
never applied), and the rule is not in currentEvolutions; consequently a
rule of the table is never fired at a time within cooldown of its recorded
last application. -/
theorem cooldown_and_activity_gate_rule_application :
    (∀ (rule : EvolutionRule) (data : InteractionData) (now : Int) (st : EngineState),
        shouldApplyRule rule data now st = true ↔
          (rule.condition data = true ∧
           now - st.getLastApplied rule.name > rule.cooldown ∧
           rule.name ∉ st.currentEvolutions)) ∧
    (∀ (now : Int) (st : EngineState) (w : World) (r : EvolutionRule),
        r ∈ setupEvolutionRules →
        r.name ∈ (checkEvolutionRules now st w).2.2 →
        now - st.getLastApplied r.name > r.cooldown) := by
  constructor
  · exact shouldApplyRule_iff
  · intro now st w r hr hf
    exact runRules_fired_cooldown now setupEvolutionRules st w r (by decide) hr hf

/-- C3, witness: content_reveal fires at a realistic clock value from the
fresh engine state on a deeply scrolled page, and the theorem yields its
cooldown inequality there. -/
theorem cooldown_gate_witness :
    demoNow - initEngineState.getLastApplied "content_reveal" > 30000 :=
  cooldown_and_activity_gate_rule_application.2 demoNow initEngineState
    deepScrollWorld (setupEvolutionRules.get ⟨4, by decide⟩)
    (List.get_mem _ _ _) (by decide)

/-- C4: a trackInteraction call leaves the interaction log at most 1000
long, and its result is exactly the appended log with precisely the oldest
entries dropped; likewise logEvolution with cap 100. -/
theorem logs_capped_oldest_first :
    (∀ (now : Int) (ty : String) (payload : List (String × Json)) (d : InteractionData),
        ∃ e : Json,
          (trackInteraction now ty payload d).interactions
              = (d.interactions ++ [e]).drop ((d.interactions.length + 1) - 1000) ∧
          (trackInteraction now ty payload d).interactions.length ≤ 1000) ∧
    (∀ (now : Int) (description : String) (w : World),
        ∃ ev : EvolutionEvent,
          (logEvolution now description w).evolutionHistory
              = (w.evolutionHistory ++ [ev]).drop ((w.evolutionHistory.length + 1) - 100) ∧
          (logEvolution now description w).evolutionHistory.length ≤ 100) := by
  constructor
  · intro now ty payload d
    exact ⟨_, (capList_append_spec 1000 d.interactions _).1,
             (capList_append_spec 1000 d.interactions _).2⟩
  · intro now description w
    exact ⟨_, (capList_append_spec 100 w.evolutionHistory _).1,
             (capList_append_spec 100 w.evolutionHistory _).2⟩

/-- C5: four trackClick calls on cta from the zeroed defaults satisfy the
cta_optimization predicate; on the next evaluation pass that rule (and only
it) fires, rewriting the three button labels, and it never fires again on
any later trace of evaluations. -/
theorem cta_optimization_fires_exactly_once :
    (setupEvolutionRules.get ⟨1, by decide⟩).condition fourCtaClicks.data = true ∧
    (checkEvolutionRules demoNow initEngineState fourCtaWorld).2.2 = ["cta_optimization"] ∧
    (checkEvolutionRules demoNow initEngineState fourCtaWorld).2.1.dom.contactHeroSpan
        = some "Let\x27s Build Together!" ∧
    (checkEvolutionRules demoNow initEngineState fourCtaWorld).2.1.dom.exploreSpan
        = some "See My Work â†’" ∧
    (checkEvolutionRules demoNow initEngineState fourCtaWorld).2.1.dom.submitSpan
        = some "Send Message Now!" ∧
    ∀ ticks : List (Int × World),
      countFired "cta_optimization"
        (runTicks ticks (checkEvolutionRules demoNow initEngineState fourCtaWorld).1).2 = 0 := by
  refine ⟨by decide, by decide, by decide, by decide, by decide, fun ticks => ?_⟩
  exact runTicks_count_zero ticks _ _ (by decide)

/-- C6: saving a data record writes its serialized tree to storage, and a
fresh construction from that stored tree reads back the identical record. -/
theorem persistence_roundtrip (d : InteractionData) (store : Option Json)
    (hlen : d.interactions.length ≤ 1000) :
    (saveData ⟨d, store⟩).storage = some (encodeData d) ∧
    initData (LoadResult.parsed (encodeData d)) = d := by
  refine ⟨rfl, ?_⟩
  unfold initData loadData
  simp [decode_encode d]

/-- C6, witness: the round trip at the default record. -/
theorem persistence_roundtrip_witness :
    defaultData.interactions.length ≤ 1000 ∧
    initData (LoadResult.parsed (encodeData defaultData)) = defaultData :=
  ⟨by decide, (persistence_roundtrip defaultData none (by decide)).2⟩

/-- C7: trackClick bumps the click counter at each known key by exactly the
number of times that key is named by the category and the optional target
(unknown keys stay untouched and undefined), appends exactly one capped log
entry, and persists the updated record immediately. -/
theorem trackClick_counter_log_persist_contract :
    ∀ (now : Int) (ty : String) (target : Option String)
      (metadata : List (String × Json)) (s : TrackerState),
      (∀ k : String,
          (trackClick now ty target metadata s).data.clicks.get k
            = (s.data.clicks.get k).map (fun v => v + clickBump ty target k)) ∧
      (∃ e : Json,
          (trackClick now ty target metadata s).data.interactions
            = capList 1000 (s.data.interactions ++ [e])) ∧
      (trackClick now ty target metadata s).storage
          = some (encodeData (trackClick now ty target metadata s).data) := by
  intro now ty target metadata s
  refine ⟨?_, ?_, rfl⟩
  · intro k
    cases target with
    | none =>
        show (s.data.clicks.incr ty).get k = _
        rw [get_incr]
        simp [clickBump]
    | some t =>
        show ((s.data.clicks.incr ty).incr t).get k = _
        rw [get_incr, get_incr, Option.map_map]
        simp [clickBump, Function.comp, add_assoc]
  · cases target with
    | none => exact ⟨_, rfl⟩
    | some t => exact ⟨_, rfl⟩

/-- C8 (amended): every tracking operation of the tracker interface other
than resetData leaves every click counter and every section-view counter
non-decreasing. -/
theorem tracker_updates_monotone :
    (∀ (now : Int) (ty : String) (target : Option String)
        (metadata : List (String × Json)) (s : TrackerState),
        clicksViewsLE s.data (trackClick now ty target metadata s).data) ∧
    (∀ (now : Int) (sect : String) (d : InteractionData),
        clicksViewsLE d (trackSectionView now sect d)) ∧
    (∀ (now : Int) (ty : String) (payload : List (String × Json)) (d : InteractionData),
        clicksViewsLE d (trackInteraction now ty payload d)) ∧
    (∀ (now : Int) (preference : String) (s : TrackerState),
        clicksViewsLE s.data (trackThemePreference now preference s).data) ∧
    (∀ (today : String) (now : Int) (s : TrackerState),
        clicksViewsLE s.data (incrementVisitCount today now s).data) ∧
    (∀ (now : Int) (currentSection : String) (sectionStartTime : Int) (d : InteractionData),
        clicksViewsLE d (updateSectionTime now currentSection sectionStartTime d)) := by
  refine ⟨?_, ?_, ?_, ?_, ?_, ?_⟩
  · intro now ty target metadata s
    unfold clicksViewsLE
    cases target with
    | none =>
        obtain ⟨h1, h2, h3, h4, h5, h6, h7⟩ := clicks_le_incr s.data.clicks ty
        exact ⟨h1, h2, h3, h4, h5, h6, h7,
               le_refl _, le_refl _, le_refl _, le_refl _⟩
    | some t =>
        obtain ⟨h1, h2, h3, h4, h5, h6, h7⟩ := clicks_le_incr s.data.clicks ty
        obtain ⟨g1, g2, g3, g4, g5, g6, g7⟩ := clicks_le_incr (s.data.clicks.incr ty) t
        exact ⟨le_trans h1 g1, le_trans h2 g2, le_trans h3 g3, le_trans h4 g4,
               le_trans h5 g5, le_trans h6 g6, le_trans h7 g7,
               le_refl _, le_refl _, le_refl _, le_refl _⟩
  · intro now sect d
    unfold clicksViewsLE
    obtain ⟨h1, h2, h3, h4⟩ := views_le_incr d.sectionViews sect
    exact ⟨le_refl _, le_refl _, le_refl _, le_refl _, le_refl _, le_refl _, le_refl _,
           h1, h2, h3, h4⟩
  · intro now ty payload d
    unfold clicksViewsLE
    exact ⟨le_refl _, le_refl _, le_refl _, le_refl _, le_refl _, le_refl _, le_refl _,
           le_refl _, le_refl _, le_refl _, le_refl _⟩
  · intro now preference s
    unfold clicksViewsLE
    exact ⟨le_refl _, le_refl _, le_refl _, le_refl _, le_refl _, le_refl _, le_refl _,
           le_refl _, le_refl _, le_refl _, le_refl _⟩
  · intro today now s
    unfold clicksViewsLE incrementVisitCount
    split_ifs <;>
      exact ⟨le_refl _, le_refl _, le_refl _, le_refl _, le_refl _, le_refl _, le_refl _,
             le_refl _, le_refl _, le_refl _, le_refl _⟩
  · intro now currentSection sectionStartTime d
    unfold clicksViewsLE
    exact ⟨le_refl _, le_refl _, le_refl _, le_refl _, le_refl _, le_refl _, le_refl _,
           le_refl _, le_refl _, le_refl _, le_refl _⟩

/-- C8, counterexample: resetData is an operation of the tracker interface
that strictly decreases a click counter (cta drops from 1 to 0). -/
theorem resetData_decreases_click_counter :
    (resetData "Sat Oct 11 2025" oneCtaClickState).data.clicks.cta
      < oneCtaClickState.data.clicks.cta := by decide

/-- C9: a caught storage write failure changes nothing and in particular
leaves the in-memory record intact; loadData turns absence and parse
failure into null; construction falls back to the zeroed defaults. -/
theorem storage_failures_never_escape :
    (∀ (writeOk : Bool) (s : TrackerState), (saveDataCaught writeOk s).data = s.data) ∧
    (∀ s : TrackerState, saveDataCaught false s = s) ∧
    loadData LoadResult.absent = none ∧
    loadData LoadResult.corrupt = none ∧
    initData LoadResult.absent = defaultData ∧
    initData LoadResult.corrupt = defaultData := by
  refine ⟨fun writeOk s => ?_, fun s => rfl, rfl, rfl, rfl, rfl⟩
  cases writeOk <;> rfl

/-- C10: incrementVisitCount does nothing when lastVisit already equals the
current day string; otherwise it bumps visitCount by one, stamps the day,
appends one visit log entry and persists. -/
theorem visit_count_once_per_day :
    ∀ (today : String) (now : Int) (s : TrackerState),
      (s.data.lastVisit = some today → incrementVisitCount today now s = s) ∧
      (s.data.lastVisit ≠ some today →
        (incrementVisitCount today now s).data.visitCount = s.data.visitCount + 1 ∧
        (incrementVisitCount today now s).data.lastVisit = some today ∧
        (∃ e : Json,
            (incrementVisitCount today now s).data.interactions
              = capList 1000 (s.data.interactions ++ [e])) ∧
        (incrementVisitCount today now s).storage
            = some (encodeData (incrementVisitCount today now s).data)) := by
  intro today now s
  constructor
  · intro h
    unfold incrementVisitCount
    rw [if_neg (by simp [h])]
  · intro h
    unfold incrementVisitCount
    rw [if_pos h]
    exact ⟨rfl, rfl, ⟨_, rfl⟩, rfl⟩

/-- C10, witness: a same-day call is the identity; a first visit bumps the
count from 0 to 1. -/
theorem visit_count_once_per_day_witness :
    incrementVisitCount "Sat Oct 11 2025" 0 visitSeenState = visitSeenState ∧
    (incrementVisitCount "Sat Oct 11 2025" 0 ⟨defaultData, none⟩).data.visitCount
        = defaultData.visitCount + 1 :=
  ⟨(visit_count_once_per_day "Sat Oct 11 2025" 0 visitSeenState).1 rfl,
   ((visit_count_once_per_day "Sat Oct 11 2025" 0 ⟨defaultData, none⟩).2 (by decide)).1⟩
